import Mathlib

/-!
Verification of the maplab server node coordination core against its
specification.  Definitions are shallow embeddings of
src/applications/maplab-server-node/src/maplab-server-ros-node.cc and of
include/maplab-server-node/maplab-server-config.h.  Components of the
repository that are only declared there (the MaplabServerNode body, the
YAML serialization bodies, the merge scheduler and lifecycle machine) are
modelled from the spec, as marked on each definition.
-/

namespace Maplab

/-- Vector of three float64 coordinates (Eigen::Vector3d).  The server code
only copies coordinates and never computes with them, so coordinates are
modelled as integers. -/
structure Vec3 where
  x : Int
  y : Int
  z : Int
deriving DecidableEq

/-- The zero vector: the sentinel for geometric fields of failed lookups. -/
def Vec3.zero : Vec3 := ⟨0, 0, 0⟩

/-- Result of submitting a submap notification (spec section 4.2). -/
inductive SubmitResult
  | accepted
  | rejected
deriving DecidableEq

/-- Server lifecycle states (spec section 4.5). -/
inductive LifecycleState
  | CREATED
  | RUNNING
  | DRAINING
  | STOPPED
deriving DecidableEq

/-- A validated submap task (spec section 3). -/
structure SubmapTask where
  robotId : String
  path : String
deriving DecidableEq

/-- The versioned global map snapshot head (spec section 3): a monotonically
increasing version and an opaque handle to the Mapping Engine's map data. -/
structure GlobalMapState where
  version : Nat
  mapHandle : Nat
deriving DecidableEq

/-- Modelled from the spec: the state of MaplabServerNode, whose body is not
under src (only the ROS node that delegates to it is): the lifecycle state
machine (section 4.5), the FIFO intake queue (section 4.2) and the
published global map state (section 3). -/
structure ServerState where
  lifecycle : LifecycleState
  queue : List SubmapTask
  globalMap : GlobalMapState
deriving DecidableEq

/-- Modelled from the spec: MaplabServerNode::loadAndProcessSubmap (declared
in maplab-server-node.h, body not under src).  Per sections 4.2 and 4.5 a
submission is rejected outright once the lifecycle state is DRAINING or
STOPPED; otherwise the task is appended to the FIFO intake queue. -/
def loadAndProcessSubmap (st : ServerState) (robot_name map_path : String) :
    SubmitResult × ServerState :=
  match st.lifecycle with
  | .DRAINING => (.rejected, st)
  | .STOPPED => (.rejected, st)
  | _ => (.accepted, { st with queue := st.queue ++ [⟨robot_name, map_path⟩] })

/-- Embeds MaplabServerRosNode::submapLoadingCallback
(maplab-server-ros-node.cc, lines 89-104).  The filesystem helpers
common::simplifyPath and common::pathExists are external collaborators and
are taken as parameters.  The callback normalizes the path, drops the
notification (logging only, nothing enqueued) when the normalized path does
not exist, and otherwise forwards it to loadAndProcessSubmap. -/
def submapLoadingCallback (pathExists : String → Bool)
    (simplifyPath : String → String) (st : ServerState)
    (robot_name msg_value : String) : SubmitResult × ServerState :=
  let map_path := simplifyPath msg_value
  if pathExists map_path = false then
    (.rejected, st)
  else
    loadAndProcessSubmap st robot_name map_path

/-- Modelled from the spec: MaplabServerNode::shutdown (section 4.5): stops
acceptance immediately, discards queued-but-unprocessed tasks, ends in
STOPPED and always reports success.  MaplabServerRosNode::shutdown
(lines 121-124) delegates to it. -/
def shutdown (st : ServerState) : Bool × ServerState :=
  (true, { st with lifecycle := .STOPPED, queue := [] })

/-- Outcome of processing one submap task: the submap pipeline commands plus
the Mapping Engine merge (both external), producing a new opaque map handle
on success.  Modelled from the spec (section 4.3). -/
inductive MergeOutcome
  | success (newHandle : Nat)
  | failure
deriving DecidableEq

/-- Modelled from the spec: one MergeScheduler iteration (section 4.3).  A
failed task is dropped and leaves the published state untouched; a
successful merge publishes a fully formed state with version one above the
previous version and a fresh handle. -/
def processTask (engine : SubmapTask → GlobalMapState → MergeOutcome)
    (g : GlobalMapState) (task : SubmapTask) : GlobalMapState :=
  match engine task g with
  | .success newHandle => { version := g.version + 1, mapHandle := newHandle }
  | .failure => g

/-- Modelled from the spec: the MergeScheduler draining the accepted tasks
in FIFO order (section 4.3). -/
def processTasks (engine : SubmapTask → GlobalMapState → MergeOutcome)
    (g : GlobalMapState) (tasks : List SubmapTask) : GlobalMapState :=
  tasks.foldl (processTask engine) g

/-- Per-item lookup status (spec section 7); always returned as data, never
raised as an error. -/
inductive LookupStatus
  | OK
  | ROBOT_UNKNOWN
  | TIMESTAMP_OUT_OF_RANGE
  | SENSOR_TYPE_UNKNOWN
deriving DecidableEq

/-- Modelled from the spec: the integer encoding applied to the status by
the callback (static_cast to int, maplab-server-ros-node.cc line 152). -/
def LookupStatus.toInt : LookupStatus → Int
  | .OK => 0
  | .ROBOT_UNKNOWN => 1
  | .TIMESTAMP_OUT_OF_RANGE => 2
  | .SENSOR_TYPE_UNKNOWN => 3

/-- One element of a batch lookup request (maplab_msgs::MapLookupRequest);
the timestamp is already converted to nanoseconds (toNSec, line 139). -/
structure MapLookupRequest where
  robot_name : String
  sensor_type : String
  timestamp : Int
  p_S : Vec3
deriving DecidableEq

/-- One element of a batch lookup response (maplab_msgs::MapLookupResponse,
lines 151-160). -/
structure MapLookupResponse where
  status : Int
  p_G : Vec3
  sensor_p_G : Vec3
deriving DecidableEq

/-- Modelled from the spec: the recorded data of one robot inside the
current global map snapshot — the recorded trajectory time range, the
sensor types known for the robot, and the opaque geometry taking a
sensor-frame point (and the sensor origin) into the global frame. -/
structure RobotMapData where
  minTimestamp : Int
  maxTimestamp : Int
  knownSensors : List String
  pointInGlobalFrame : Int → Vec3 → Vec3
  sensorOriginInGlobalFrame : Int → Vec3

/-- Modelled from the spec: the published GlobalMapState snapshot as seen by
the query server (section 4.4), keyed by robot name. -/
structure MapSnapshot where
  robots : List (String × RobotMapData)

/-- Modelled from the spec: MaplabServerNode::mapLookup (sections 4.4 and
7), whose body is not under src.  An unknown robot, an unrecognized sensor
type, or a timestamp outside the recorded trajectory each yield their
distinct non-OK status with both geometric outputs at the zero-vector
sentinel; otherwise status OK with the resolved geometry.  The function is
total: failures are data, never thrown. -/
def mapLookup (snapshot : MapSnapshot) (robot_name sensor_type : String)
    (timestamp_ns : Int) (p_S : Vec3) : LookupStatus × Vec3 × Vec3 :=
  match snapshot.robots.lookup robot_name with
  | none => (.ROBOT_UNKNOWN, Vec3.zero, Vec3.zero)
  | some data =>
    if sensor_type ∈ data.knownSensors then
      if timestamp_ns < data.minTimestamp ∨ data.maxTimestamp < timestamp_ns then
        (.TIMESTAMP_OUT_OF_RANGE, Vec3.zero, Vec3.zero)
      else
        (.OK, data.pointInGlobalFrame timestamp_ns p_S,
          data.sensorOriginInGlobalFrame timestamp_ns)
    else
      (.SENSOR_TYPE_UNKNOWN, Vec3.zero, Vec3.zero)

/-- Embeds the body of the loop of MaplabServerRosNode::mapLookupCallback
(lines 138-162): one response is built from one request and the current
snapshot alone; the status integer and both vectors are copied from the
per-item lookup result. -/
def lookupResponseFor (snapshot : MapSnapshot) (request : MapLookupRequest) :
    MapLookupResponse :=
  let r := mapLookup snapshot request.robot_name request.sensor_type
    request.timestamp request.p_S
  { status := r.1.toInt, p_G := r.2.1, sensor_p_G := r.2.2 }

/-- Embeds MaplabServerRosNode::mapLookupCallback (lines 135-166): the loop
appends one response per request in order (emplace_back) and the service
call itself always returns true. -/
def mapLookupCallback (snapshot : MapSnapshot)
    (requests : List MapLookupRequest) : Bool × List MapLookupResponse :=
  (true,
    requests.foldl (fun acc request => acc ++ [lookupResponseFor snapshot request]) [])

/-- YAML field name of the submap command list (maplab-server-config.h,
line 24). -/
def kYamlFieldNameSubmapCommands : String := "submap_commands"

/-- YAML field name of the global map command list (maplab-server-config.h,
line 25). -/
def kYamlFieldNameGlobalMapCommands : String := "global_map_commands"

/-- Embeds MaplabServerNodeConfig (maplab-server-config.h, lines 16-26):
two ordered command lists, duplicates permitted. -/
structure MaplabServerNodeConfig where
  submap_commands : List String
  global_map_commands : List String
deriving DecidableEq

/-- Modelled from the spec: a YAML mapping restricted to what the config
uses — named ordered string sequences (section 6). -/
structure YamlNode where
  entries : List (String × List String)
deriving DecidableEq

/-- Modelled from the spec: MaplabServerNodeConfig::serialize (declared at
maplab-server-config.h line 22, body not under src): writes the two command
sequences verbatim under their field names. -/
def MaplabServerNodeConfig.serialize (c : MaplabServerNodeConfig) : YamlNode :=
  ⟨[(kYamlFieldNameSubmapCommands, c.submap_commands),
    (kYamlFieldNameGlobalMapCommands, c.global_map_commands)]⟩

/-- Modelled from the spec: MaplabServerNodeConfig::deserialize (declared at
maplab-server-config.h line 21, body not under src): fails when a required
field is missing, otherwise reads the two sequences verbatim, preserving
order and duplicates (section 4.1). -/
def MaplabServerNodeConfig.deserialize (node : YamlNode) :
    Option MaplabServerNodeConfig :=
  match node.entries.lookup kYamlFieldNameSubmapCommands,
      node.entries.lookup kYamlFieldNameGlobalMapCommands with
  | some s, some g => some ⟨s, g⟩
  | _, _ => none

/-- The server node held by the ROS node after successful construction. -/
structure MaplabServerNode where
  config : MaplabServerNodeConfig
deriving DecidableEq

/-- Embeds the ROS-side constructor MaplabServerRosNode::MaplabServerRosNode
(maplab-server-ros-node.cc, lines 44-57).  Reading the configured file is
modelled as an optional YAML node (none when the file is missing or
unreadable) followed by deserialize; the glog CHECK on the combined result
is a fatal process abort, modelled as none: no server node is ever created
on a configuration failure. -/
def constructMaplabServerRosNode (configFile : Option YamlNode) :
    Option MaplabServerNode :=
  match configFile with
  | none => none
  | some node =>
    match MaplabServerNodeConfig.deserialize node with
    | none => none
    | some config => some { config := config }

/-- Embeds MaplabServerRosNode::saveMap with an explicit folder argument
(maplab-server-ros-node.cc, lines 106-112).  CHECK on the folder being
non-empty is a fatal process abort, modelled as none; otherwise the call
returns the underlying MaplabServerNode::saveMap result, taken as a
parameter since its body is not under src. -/
def saveMapWithFolder (underlyingSaveMap : String → Bool)
    (map_folder : String) : Option Bool :=
  if map_folder.isEmpty then none
  else some (underlyingSaveMap map_folder)

/-- Folding emplace_back over a list builds exactly the mapped list. -/
theorem foldl_append_singleton_eq_map {α β : Type} (f : α → β)
    (l : List α) : ∀ acc : List β,
    l.foldl (fun a x => a ++ [f x]) acc = acc ++ l.map f := by
  induction l with
  | nil => intro acc; simp
  | cons x xs ih => intro acc; simp [List.foldl, ih]

/-- C1: a submap notification whose normalized path does not exist on disk
is rejected: it is dropped without being enqueued or processed, and the
whole server state — in particular GlobalMapState.version — is unchanged
afterward. -/
theorem submapNotification_nonexistent_path_rejected
    (pathExists : String → Bool) (simplifyPath : String → String)
    (st : ServerState) (robot_name msg_value : String)
    (h : pathExists (simplifyPath msg_value) = false) :
    submapLoadingCallback pathExists simplifyPath st robot_name msg_value =
      (SubmitResult.rejected, st) ∧
    (submapLoadingCallback pathExists simplifyPath st robot_name msg_value).2.queue
      = st.queue ∧
    (submapLoadingCallback pathExists simplifyPath st robot_name msg_value).2.globalMap.version
      = st.globalMap.version := by
  refine ⟨?_, ?_, ?_⟩ <;> simp [submapLoadingCallback, h]

/-- C1 witness: a concrete notification for a path no filesystem reports. -/
theorem submapNotification_nonexistent_path_rejected_witness :
    submapLoadingCallback (fun _ => false) (fun p => p)
      ⟨LifecycleState.RUNNING, [], ⟨7, 0⟩⟩ "robotA" "/tmp/does_not_exist" =
      (SubmitResult.rejected, ⟨LifecycleState.RUNNING, [], ⟨7, 0⟩⟩) :=
  (submapNotification_nonexistent_path_rejected (fun _ => false) (fun p => p)
    ⟨LifecycleState.RUNNING, [], ⟨7, 0⟩⟩ "robotA" "/tmp/does_not_exist" rfl).1

/-- C2: a batch of K lookup requests always returns true and exactly K
responses, in request order: the response list is the pointwise image of
the request list. -/
theorem mapLookupCallback_batch_shape (snapshot : MapSnapshot)
    (requests : List MapLookupRequest) :
    (mapLookupCallback snapshot requests).1 = true ∧
    (mapLookupCallback snapshot requests).2.length = requests.length ∧
    (mapLookupCallback snapshot requests).2 =
      requests.map (lookupResponseFor snapshot) := by
  have h := foldl_append_singleton_eq_map (lookupResponseFor snapshot) requests []
  refine ⟨rfl, ?_, ?_⟩ <;> simp [mapLookupCallback, h]

/-- C3: a failing lookup carries its status as data — an integer encoding
that is injective on statuses, so each failure mode is distinct and non-OK
— and leaves both geometric response fields at the zero-vector sentinel. -/
theorem mapLookup_failure_zero_sentinel (snapshot : MapSnapshot)
    (request : MapLookupRequest)
    (h : (mapLookup snapshot request.robot_name request.sensor_type
        request.timestamp request.p_S).1 ≠ LookupStatus.OK) :
    (lookupResponseFor snapshot request).p_G = Vec3.zero ∧
    (lookupResponseFor snapshot request).sensor_p_G = Vec3.zero ∧
    (lookupResponseFor snapshot request).status =
      (mapLookup snapshot request.robot_name request.sensor_type
        request.timestamp request.p_S).1.toInt ∧
    ∀ a b : LookupStatus, a.toInt = b.toInt → a = b := by
  have key : (mapLookup snapshot request.robot_name request.sensor_type
      request.timestamp request.p_S).2.1 = Vec3.zero ∧
      (mapLookup snapshot request.robot_name request.sensor_type
      request.timestamp request.p_S).2.2 = Vec3.zero := by
    unfold mapLookup at h ⊢
    cases hl : snapshot.robots.lookup request.robot_name with
    | none => simp [hl]
    | some data =>
      by_cases hs : request.sensor_type ∈ data.knownSensors
      · by_cases ht : request.timestamp < data.minTimestamp ∨
            data.maxTimestamp < request.timestamp
        · simp [hl, hs, ht]
        · exact absurd (by simp [hl, hs, ht]) h
      · simp [hl, hs]
  refine ⟨key.1, key.2, rfl, ?_⟩
  intro a b hab
  cases a <;> cases b <;> simp_all [LookupStatus.toInt]

/-- C3 witness: a lookup against an empty snapshot fails (unknown robot)
and the response geometry is the zero sentinel. -/
theorem mapLookup_failure_zero_sentinel_witness :
    (mapLookup ⟨[]⟩ "robotA" "lidar" 0 ⟨1, 2, 3⟩).1 ≠ LookupStatus.OK ∧
    (lookupResponseFor ⟨[]⟩ ⟨"robotA", "lidar", 0, ⟨1, 2, 3⟩⟩).p_G = Vec3.zero :=
  ⟨by decide,
    (mapLookup_failure_zero_sentinel ⟨[]⟩ ⟨"robotA", "lidar", 0, ⟨1, 2, 3⟩⟩
      (by decide)).1⟩

/-- C4: within one batch against a fixed snapshot, each element's response
is a function of that element's request alone: two batches agreeing at
position i produce responses agreeing at position i, whatever the sibling
requests (including failing ones) are. -/
theorem mapLookupCallback_elementwise_independent (snapshot : MapSnapshot)
    (reqs1 reqs2 : List MapLookupRequest) (i : Nat)
    (h : reqs1[i]? = reqs2[i]?) :
    (mapLookupCallback snapshot reqs1).2[i]? =
      (mapLookupCallback snapshot reqs2).2[i]? := by
  have h1 := foldl_append_singleton_eq_map (lookupResponseFor snapshot) reqs1 []
  have h2 := foldl_append_singleton_eq_map (lookupResponseFor snapshot) reqs2 []
  simp [mapLookupCallback, h1, h2, List.getElem?_map, h]

/-- C4 witness: the first element's response is the same whether or not an
unknown-robot sibling follows it. -/
theorem mapLookupCallback_elementwise_independent_witness :
    (mapLookupCallback ⟨[]⟩ [⟨"a", "s", 0, ⟨0, 0, 0⟩⟩]).2[0]? =
      (mapLookupCallback ⟨[]⟩
        [⟨"a", "s", 0, ⟨0, 0, 0⟩⟩, ⟨"b", "s", 1, ⟨0, 0, 0⟩⟩]).2[0]? :=
  mapLookupCallback_elementwise_independent ⟨[]⟩
    [⟨"a", "s", 0, ⟨0, 0, 0⟩⟩]
    [⟨"a", "s", 0, ⟨0, 0, 0⟩⟩, ⟨"b", "s", 1, ⟨0, 0, 0⟩⟩] 0 rfl

/-- C5: serializing a config and loading the result reproduces both command
sequences exactly — the whole config — preserving order and duplicates. -/
theorem config_serialize_load_roundtrip (c : MaplabServerNodeConfig) :
    MaplabServerNodeConfig.deserialize (MaplabServerNodeConfig.serialize c) =
      some c := by
  rfl

/-- C6: a missing or structurally malformed configuration makes server
construction fail fatally: no server node is ever created. -/
theorem config_failure_aborts_construction (configFile : Option YamlNode)
    (h : configFile = none ∨
      ∃ node, configFile = some node ∧
        MaplabServerNodeConfig.deserialize node = none) :
    constructMaplabServerRosNode configFile = none := by
  rcases h with h | ⟨node, hn, hd⟩
  · simp [constructMaplabServerRosNode, h]
  · simp [constructMaplabServerRosNode, hn, hd]

/-- C6 witness: a structurally malformed (empty) YAML node aborts
construction. -/
theorem config_failure_aborts_construction_witness :
    constructMaplabServerRosNode (some ⟨[]⟩) = none :=
  config_failure_aborts_construction (some ⟨[]⟩) (Or.inr ⟨⟨[]⟩, rfl, rfl⟩)

/-- C7: once the lifecycle state is DRAINING or STOPPED (as it is after
shutdown), every subsequent submap submission is rejected outright and
leaves the state unchanged, even when the submitted path exists on disk. -/
theorem submit_rejected_after_shutdown (pathExists : String → Bool)
    (simplifyPath : String → String) (st : ServerState)
    (robot_name msg_value : String)
    (h : st.lifecycle = LifecycleState.DRAINING ∨
      st.lifecycle = LifecycleState.STOPPED) :
    submapLoadingCallback pathExists simplifyPath st robot_name msg_value =
      (SubmitResult.rejected, st) := by
  by_cases hp : pathExists (simplifyPath msg_value) = false <;>
    rcases h with h | h <;>
      simp [submapLoadingCallback, loadAndProcessSubmap, hp, h]

/-- C7 witness: after shutdown, a submission whose path exists is still
rejected. -/
theorem submit_rejected_after_shutdown_witness :
    submapLoadingCallback (fun _ => true) (fun p => p)
      (shutdown ⟨LifecycleState.RUNNING, [], ⟨0, 0⟩⟩).2 "robotA" "/tmp/map1" =
      (SubmitResult.rejected, (shutdown ⟨LifecycleState.RUNNING, [], ⟨0, 0⟩⟩).2) :=
  submit_rejected_after_shutdown (fun _ => true) (fun p => p)
    (shutdown ⟨LifecycleState.RUNNING, [], ⟨0, 0⟩⟩).2 "robotA" "/tmp/map1"
    (Or.inr rfl)

/-- C8: GlobalMapState.version is monotonic under the merge scheduler: a
successful merge publishes exactly the previous version plus one, the
version never decreases over any task sequence, and when every task merges
successfully N tasks raise the version by exactly N. -/
theorem globalMap_version_monotonic
    (engine : SubmapTask → GlobalMapState → MergeOutcome)
    (g : GlobalMapState) (tasks : List SubmapTask) :
    (∀ (t : SubmapTask) (g' : GlobalMapState) (newHandle : Nat),
      engine t g' = MergeOutcome.success newHandle →
      (processTask engine g' t).version = g'.version + 1) ∧
    g.version ≤ (processTasks engine g tasks).version ∧
    ((∀ (t : SubmapTask) (g' : GlobalMapState),
        engine t g' ≠ MergeOutcome.failure) →
      (processTasks engine g tasks).version = g.version + tasks.length) := by
  refine ⟨?_, ?_, ?_⟩
  · intro t g' newHandle hsucc
    simp [processTask, hsucc]
  · induction tasks generalizing g with
    | nil => simp [processTasks]
    | cons t ts ih =>
      have hstep : g.version ≤ (processTask engine g t).version := by
        cases hc : engine t g with
        | success nh => simp only [processTask, hc]; omega
        | failure => simp [processTask, hc]
      calc g.version ≤ (processTask engine g t).version := hstep
        _ ≤ (processTasks engine (processTask engine g t) ts).version := ih _
        _ = (processTasks engine g (t :: ts)).version := rfl
  · intro hall
    induction tasks generalizing g with
    | nil => simp [processTasks]
    | cons t ts ih =>
      have hstep : (processTask engine g t).version = g.version + 1 := by
        cases hc : engine t g with
        | success nh => simp [processTask, hc]
        | failure => exact absurd hc (hall t g)
      have hrec : processTasks engine g (t :: ts) =
          processTasks engine (processTask engine g t) ts := rfl
      rw [hrec, ih (processTask engine g t), hstep]
      simp [List.length_cons]
      omega

/-- C8 witness: two always-successful merges starting at version 3 end at
version 5. -/
theorem globalMap_version_monotonic_witness :
    (processTasks (fun _ _ => MergeOutcome.success 5) ⟨3, 0⟩
      [⟨"a", "p"⟩, ⟨"b", "q"⟩]).version = 5 :=
  (globalMap_version_monotonic (fun _ _ => MergeOutcome.success 5) ⟨3, 0⟩
    [⟨"a", "p"⟩, ⟨"b", "q"⟩]).2.2 (fun _ _ => by decide)

/-- C9: shutdown always succeeds and is idempotent: after one call the
lifecycle is STOPPED, and a second call is a no-op that also returns
success, leaving the state STOPPED. -/
theorem shutdown_idempotent (st : ServerState) :
    (shutdown st).1 = true ∧
    (shutdown st).2.lifecycle = LifecycleState.STOPPED ∧
    shutdown (shutdown st).2 = (true, (shutdown st).2) :=
  ⟨rfl, rfl, rfl⟩

/-- C10: saveMap with an explicit folder argument aborts the process (CHECK
failure, not a boolean result) on the empty string, and under the
precondition that the folder is non-empty it returns the underlying save
result. -/
theorem saveMap_explicit_folder_check (underlyingSaveMap : String → Bool) :
    saveMapWithFolder underlyingSaveMap "" = none ∧
    ∀ map_folder : String, map_folder.isEmpty = false →
      saveMapWithFolder underlyingSaveMap map_folder =
        some (underlyingSaveMap map_folder) := by
  constructor
  · rfl
  · intro f hf
    simp [saveMapWithFolder, hf]

/-- C10 witness: the empty folder aborts; a concrete non-empty folder
returns the underlying result. -/
theorem saveMap_explicit_folder_check_witness :
    saveMapWithFolder (fun _ => true) "" = none ∧
    saveMapWithFolder (fun _ => true) "/tmp/out" = some true :=
  ⟨(saveMap_explicit_folder_check (fun _ => true)).1,
    (saveMap_explicit_folder_check (fun _ => true)).2 "/tmp/out" rfl⟩

end Maplab
